import Mathlib

/-!
Shallow embedding of the Manim Studio browser-side UI layer
(desktop renderer script, asset browser scripts, output console script).

Conventions of the embedding:
* Backend (pywebview) calls, toasts, console writes and other observable
  actions are recorded as values of type `Eff` in the order they occur.
* DOM reads (select values, custom width/height/fps inputs) become explicit
  parameters; JavaScript truthiness of such values is modelled explicitly
  (`parseInt(x) || d` becomes `jsOrDefault`, empty string is falsy).
* Asynchronous backend responses become an explicit `ApiResult` parameter:
  the function is the whole `async` body, with the awaited result supplied.
-/

namespace ManimStudio

/-- Observable actions performed by the UI layer. -/
inductive Eff where
  | apiCall (method : String) (args : List String)
  | toastMsg (message : String) (level : String)
  | consoleLine (text : String) (level : String)
  | statusSet (text : String) (level : String)
  | showPreviewEff (path : String)
  | switchTab (tab : String)
  | saveDialog (path : String) (suggested : String)
  | alertMsg (message : String) (level : String)
  | termResize (cols : Nat) (rows : Nat)
  | termWrite (text : String)
  | logError (text : String)
  deriving Repr, DecidableEq

/-- Predicate selecting backend (pywebview.api) calls among the effects. -/
def Eff.isApiCall : Eff → Bool
  | .apiCall _ _ => true
  | _ => false

/-- Number of backend calls in a list of effects. -/
def apiCallCount (effs : List Eff) : Nat := (effs.filter Eff.isApiCall).length

/-- Outcome of an awaited backend call: a result object with
`status === 'success'`, one with `status === 'error'` and a message, or a
thrown exception caught by the surrounding try/catch. -/
inductive ApiResult where
  | okStatus
  | errorStatus (message : String)
  | exn (message : String)
  deriving Repr, DecidableEq

/-- Source: `const job = { running: false, type: null };` -/
structure Job where
  running : Bool
  type : Option String
  deriving Repr, DecidableEq

/-- Initial job state from the module top level. -/
def initJob : Job := { running := false, type := none }

/-- Mutable app state touched by the renderer script: the job record, the
editor (none while Monaco has not initialized; `some code` otherwise), the
shutdown flag `isAppClosing`, and the autosave bookkeeping
(`lastSavedCode`, the autosave indicator class, `hasUnsavedChanges`). -/
structure AppState where
  job : Job
  editor : Option String
  isAppClosing : Bool
  lastSavedCode : String
  saveIndicator : String
  hasUnsavedChanges : Bool
  deriving Repr, DecidableEq

/-- Source: `function getEditorValue() { return editor ? editor.getValue() : ''; }` -/
def getEditorValue (s : AppState) : String := s.editor.getD ""

/-- DOM inputs read by `renderAnimation` / `quickPreview`: the quality and
fps select values and the custom number inputs. A custom input parses to
`none` when `parseInt` yields NaN; `some 0` is also falsy in JS. -/
structure RenderSettings where
  qualitySelect : String
  customWidth : Option Nat
  customHeight : Option Nat
  fpsSelect : String
  customFps : Option Nat
  deriving Repr, DecidableEq

/-- JavaScript `s.trim()`: strips leading and trailing whitespace.
Implemented over the character list so that it reduces in the kernel. -/
def jsTrim (s : String) : String :=
  String.mk (((s.data.dropWhile Char.isWhitespace).reverse.dropWhile
    Char.isWhitespace).reverse)

/-- Numeric value of a digit list (most significant first). -/
def digitsToNat (l : List Char) : Nat :=
  l.foldl (fun a c => a * 10 + (c.toNat - 48)) 0

/-- JavaScript `parseInt(s, 10)` restricted to the non-negative select
values this UI feeds it: the longest digit prefix, or `none` (NaN) when
the string does not start with a digit. -/
def parseIntOpt (s : String) : Option Nat :=
  let ds := s.data.takeWhile Char.isDigit
  if ds.isEmpty then none else some (digitsToNat ds)

/-- JavaScript `parseInt(v, 10) || d`: NaN and 0 are falsy, so both fall
back to the default. -/
def jsOrDefault (v : Option Nat) (d : Nat) : Nat :=
  match v with
  | none => d
  | some 0 => d
  | some n => n

/-- Source lines 769-773: quality is the select value, or
`width + "x" + height` when the select says custom (defaults 1920/1080). -/
def resolveQuality (sett : RenderSettings) : String :=
  if sett.qualitySelect = "custom" then
    toString (jsOrDefault sett.customWidth 1920) ++ "x" ++
      toString (jsOrDefault sett.customHeight 1080)
  else sett.qualitySelect

/-- Source lines 776-780: fps is the custom input or the parsed select
value, with default `d` (30 for render, 15 for preview). -/
def resolveFps (sett : RenderSettings) (d : Nat) : Nat :=
  if sett.fpsSelect = "custom" then jsOrDefault sett.customFps d
  else jsOrDefault (parseIntOpt sett.fpsSelect) d

/-- Source `async function renderAnimation()` (renderer script lines
759-799).  Rejects when `job.running`; resolves quality and fps; rejects
empty (whitespace-only) code; otherwise awaits
`pywebview.api.render_animation(code, quality, fps)` and toasts on an
error status or a thrown error.  The job record is never written. -/
def renderAnimation (s : AppState) (sett : RenderSettings) (res : ApiResult) :
    AppState × List Eff :=
  if s.job.running then
    (s, [Eff.toastMsg "Another job is running" "warning"])
  else
    let quality := resolveQuality sett
    let fps := resolveFps sett 30
    let code := getEditorValue s
    if jsTrim code = "" then
      (s, [Eff.toastMsg "No code to render" "warning"])
    else
      let call := Eff.apiCall "render_animation" [code, quality, toString fps]
      match res with
      | .okStatus => (s, [call])
      | .errorStatus msg =>
          (s, [call, Eff.toastMsg ("Render failed: " ++ msg) "error"])
      | .exn msg =>
          (s, [call, Eff.toastMsg ("Render error: " ++ msg) "error"])

/-- Source `async function quickPreview()` (renderer script lines 801-843).
Same shape as `renderAnimation` with the preview entry point and default
fps 15; its catch branch additionally clears `job.running` and sets the
terminal status to Error. -/
def quickPreview (s : AppState) (sett : RenderSettings) (res : ApiResult) :
    AppState × List Eff :=
  if s.job.running then
    (s, [Eff.toastMsg "Another job is running" "warning"])
  else
    let quality := resolveQuality sett
    let fps := resolveFps sett 15
    let code := getEditorValue s
    if jsTrim code = "" then
      (s, [Eff.toastMsg "No code to preview" "warning"])
    else
      let call := Eff.apiCall "quick_preview" [code, quality, toString fps]
      match res with
      | .okStatus => (s, [call])
      | .errorStatus msg =>
          (s, [call, Eff.toastMsg ("Preview failed: " ++ msg) "error"])
      | .exn msg =>
          ({ s with job := { s.job with running := false } },
           [call, Eff.toastMsg ("Preview error: " ++ msg) "error",
            Eff.statusSet "Error" "error"])

/-- A start request: which entry point (preview or render), the DOM inputs,
and the eventual backend response. -/
structure StartReq where
  isPreview : Bool
  sett : RenderSettings
  res : ApiResult
  deriving Repr, DecidableEq

/-- Dispatch of one start request. -/
def startStep (s : AppState) (r : StartReq) : AppState × List Eff :=
  if r.isPreview then quickPreview s r.sett r.res else renderAnimation s r.sett r.res

/-- State after a sequence of start requests. -/
def runStarts (s : AppState) (rs : List StartReq) : AppState :=
  rs.foldl (fun s r => (startStep s r).1) s

/-- Number of running jobs recorded in the state: the UI keeps a single
`job` record, so this is 1 when `job.running` and 0 otherwise. -/
def runningJobs (j : Job) : Nat := if j.running then 1 else 0

/-- Source `function updateSaveStatus(status)` (renderer script lines
446-469): sets the autosave indicator class and, for saved/unsaved, the
`hasUnsavedChanges` flag; an unknown status only strips the classes. -/
def updateSaveStatus (s : AppState) (status : String) : AppState :=
  if status = "saved" then
    { s with saveIndicator := "saved", hasUnsavedChanges := false }
  else if status = "saving" then
    { s with saveIndicator := "saving" }
  else if status = "unsaved" then
    { s with saveIndicator := "unsaved", hasUnsavedChanges := true }
  else
    { s with saveIndicator := "" }

/-- Source `async function performAutosave()` (renderer script lines
471-502): returns early when the editor is absent or the app is closing,
when the code equals `lastSavedCode`, or when it is whitespace-only;
otherwise marks saving, awaits `pywebview.api.autosave_code(code)`, and on
success marks saved and remembers the code, otherwise marks unsaved. -/
def performAutosave (s : AppState) (res : ApiResult) : AppState × List Eff :=
  if s.editor = none ∨ s.isAppClosing then (s, [])
  else
    let code := getEditorValue s
    if code = s.lastSavedCode then (s, [])
    else if jsTrim code = "" then (s, [])
    else
      let s1 := updateSaveStatus s "saving"
      let call := Eff.apiCall "autosave_code" [code]
      match res with
      | .okStatus =>
          ({ updateSaveStatus s1 "saved" with lastSavedCode := code }, [call])
      | .errorStatus _ => (updateSaveStatus s1 "unsaved", [call])
      | .exn _ => (updateSaveStatus s1 "unsaved", [call])

/-- Horizontal separator written around completion messages:
`'─'.repeat(60)`. -/
def sepLine : String := String.mk (List.replicate 60 '─')

/-- Source `window.renderCompleted` (renderer script lines 1059-1095):
clears `job.running`, sets status Ready, toasts, and when an output path
was provided shows it in the preview box, switches to the workspace tab,
and (when autoSave) schedules the save dialog. -/
def renderCompleted (s : AppState) (outputPath : String) (autoSave : Bool)
    (suggestedName : String) : AppState × List Eff :=
  let s1 := { s with job := { s.job with running := false } }
  let base :=
    [Eff.consoleLine sepLine "info",
     Eff.consoleLine "Render completed successfully!" "success",
     Eff.consoleLine sepLine "info",
     Eff.statusSet "Ready" "success",
     Eff.toastMsg "Render completed!" "success"]
  if outputPath ≠ "" then
    (s1, base ++ [Eff.showPreviewEff outputPath, Eff.switchTab "workspace"] ++
      (if autoSave then [Eff.saveDialog outputPath suggestedName] else []))
  else (s1, base)

/-- Source `window.renderFailed` (renderer script lines 1097-1103). -/
def renderFailed (s : AppState) (error : String) : AppState × List Eff :=
  ({ s with job := { s.job with running := false } },
   [Eff.consoleLine sepLine "info",
    Eff.consoleLine ("Render failed: " ++ error) "error",
    Eff.consoleLine sepLine "info",
    Eff.statusSet "Error" "error"])

/-- Source `window.previewCompleted` (renderer script lines 1105-1136):
clears `job.running`, sets status Ready, and when an output path was
provided shows it in the preview box and switches to the workspace tab;
otherwise warns that no preview file was found. -/
def previewCompleted (s : AppState) (outputPath : String) : AppState × List Eff :=
  let s1 := { s with job := { s.job with running := false } }
  let base :=
    [Eff.consoleLine sepLine "info",
     Eff.consoleLine "Preview completed! File ready in preview box." "success",
     Eff.consoleLine sepLine "info",
     Eff.statusSet "Ready" "success"]
  if outputPath ≠ "" then
    (s1, base ++ [Eff.showPreviewEff outputPath, Eff.switchTab "workspace"])
  else (s1, base ++ [Eff.consoleLine "Warning: No preview file found" "warning"])

/-- Source `window.previewFailed` (renderer script lines 1138-1144). -/
def previewFailed (s : AppState) (error : String) : AppState × List Eff :=
  ({ s with job := { s.job with running := false } },
   [Eff.consoleLine sepLine "info",
    Eff.consoleLine ("Preview failed: " ++ error) "error",
    Eff.consoleLine sepLine "info",
    Eff.statusSet "Error" "error"])

/-- Source `window.addEventListener('beforeunload', ...)` (renderer script
lines 1826-1829): the handler only sets the shutdown flag. -/
def beforeunloadHandler (s : AppState) : AppState := { s with isAppClosing := true }

/-- Which resize path armed the shared debounce timer: the ResizeObserver
on the terminal container, or the window resize listener. -/
inductive ResizeSrc where
  | observer
  | window
  deriving Repr, DecidableEq

/-- Terminal resize state: the last (cols, rows) reported via
`term.resize`/`resize_terminal`, the pending debounce timer (none when no
timer is armed), and the shutdown flag read by the timer callbacks. -/
structure TermResizeState where
  lastCols : Nat
  lastRows : Nat
  pending : Option ResizeSrc
  isAppClosing : Bool
  deriving Repr, DecidableEq

/-- A resize event (either path) clears any pending timeout and arms a new
100 ms one; no effect is performed until the timer fires. Source lines
2208-2215 and 2242-2246. -/
def scheduleResize (s : TermResizeState) (src : ResizeSrc) :
    TermResizeState × List Eff :=
  ({ s with pending := some src }, [])

/-- The debounce timer fires after the burst settles;
`calculateTerminalSize()` is evaluated at fire time, yielding `(cols,
rows)`. The observer callback (lines 2215-2236) resizes and notifies the
backend only when the size is positive and differs from the last reported
one; the window-resize callback (lines 2246-2256) resizes and notifies
whenever the size is positive, without comparing against the last reported
size. Both skip the backend call when `isAppClosing`. -/
def settleResize (s : TermResizeState) (cols rows : Nat) :
    TermResizeState × List Eff :=
  match s.pending with
  | none => (s, [])
  | some ResizeSrc.observer =>
      if 0 < cols ∧ 0 < rows ∧ (cols ≠ s.lastCols ∨ rows ≠ s.lastRows) then
        ({ s with lastCols := cols, lastRows := rows, pending := none },
         [Eff.termResize cols rows] ++
           (if s.isAppClosing then []
            else [Eff.apiCall "resize_terminal" [toString cols, toString rows]]))
      else ({ s with pending := none }, [])
  | some ResizeSrc.window =>
      if 0 < cols ∧ 0 < rows then
        ({ s with lastCols := cols, lastRows := rows, pending := none },
         [Eff.termResize cols rows] ++
           (if s.isAppClosing then []
            else [Eff.apiCall "resize_terminal" [toString cols, toString rows]]))
      else ({ s with pending := none }, [])

/-- State after a burst of resize events (each one only re-arms the shared
timer). -/
def processBurst (s : TermResizeState) (evs : List ResizeSrc) : TermResizeState :=
  evs.foldl (fun s e => (scheduleResize s e).1) s

/-- Effects emitted while a burst of resize events is being delivered:
each event only re-arms the timer, so this is the concatenation of the
(empty) effect lists of `scheduleResize`. -/
def burstEffects (s : TermResizeState) (evs : List ResizeSrc) : List Eff :=
  (evs.foldl (fun acc e => ((scheduleResize acc.1 e).1, acc.2 ++ (scheduleResize acc.1 e).2))
    (s, ([] : List Eff))).2

/-- Error handler attached to the observer-path `resize_terminal` promise
(lines 2225-2230): logs the error only when the app is not closing. -/
def resizeErrorCatch (closing : Bool) (err : String) : List Eff :=
  if closing then [] else [Eff.logError ("Error resizing PTY: " ++ err)]

/-- Result of one `get_terminal_output` poll. -/
structure PollResult where
  okStatus : Bool
  output : String
  deriving Repr, DecidableEq

/-- Source `startTerminalPolling` interval callback (renderer script lines
1598-1606): every tick awaits `pywebview.api.get_terminal_output()` —
without consulting `isAppClosing` — and writes any returned output to the
terminal widget. -/
def terminalPollTick (s : AppState) (term : Bool) (res : PollResult) : List Eff :=
  [Eff.apiCall "get_terminal_output" []] ++
    (if res.okStatus ∧ res.output ≠ "" ∧ term then [Eff.termWrite res.output] else [])

/-- Cached asset entry (`allAssets` items): name and path as reported by
the backend listing. -/
structure AssetFile where
  name : String
  path : String
  deriving Repr, DecidableEq

/-- JavaScript `hay.includes(needle)`: true for the empty needle, and
otherwise exactly when splitting on the needle produces more than one
piece. -/
def jsIncludes (hay needle : String) : Bool :=
  needle = "" || (hay.splitOn needle).length > 1

/-- Lower-cased final extension, JS `name.split('.').pop().toLowerCase()`. -/
def extOf (name : String) : String := ((name.splitOn ".").getLastD "").toLower

/-- Category test from the renderer script asset filter (lines 1286-1296):
video and image filters check extension lists; any other non-"all" filter
keeps every file. -/
def matchesCategory (filt : String) (f : AssetFile) : Bool :=
  let ext := extOf f.name
  if filt = "video" then ["mp4", "mov", "webm", "avi"].contains ext
  else if filt = "image" then ["png", "jpg", "jpeg", "gif", "svg"].contains ext
  else true

/-- Filter pipeline of `displayAssets` (renderer script lines 1277-1296):
the name-substring filter applies only when `searchQuery` is truthy
(non-empty), the category filter only when `currentFilter !== 'all'`. -/
def filterAssets (files : List AssetFile) (searchQuery currentFilter : String) :
    List AssetFile :=
  let f1 :=
    if searchQuery ≠ "" then
      files.filter (fun f => jsIncludes f.name.toLower searchQuery.toLower)
    else files
  if currentFilter ≠ "all" then f1.filter (matchesCategory currentFilter) else f1

/-- Source `function displayAssets(files)` (renderer script lines
1242-1310), projected to the list of asset cards rendered in order: an
empty cache or an empty filter result renders an empty-state message and
no cards; otherwise one card per filtered file, in filtered order. -/
def displayAssets (files : List AssetFile) (searchQuery currentFilter : String) :
    List AssetFile :=
  if files.isEmpty then []
  else
    let filteredFiles := filterAssets files searchQuery currentFilter
    if filteredFiles.isEmpty then [] else filteredFiles

/-- How the user answers the custom delete-confirmation modal
(simple_assets.js lines 940-1012): the Delete button, the Cancel button, a
click on the overlay, or the ESC key.  Only the Delete button runs
`onConfirm`; the other three only remove the modal. -/
inductive ConfirmChoice where
  | confirmYes
  | cancelBtn
  | overlayClick
  | escKey
  deriving Repr, DecidableEq

/-- Source `function deleteAsset(filePath, fileName)` in simple_assets.js
(lines 143-166): shows the confirmation modal; only when confirmed does it
await `pywebview.api.delete_asset(filePath)` and, on success, alert and
reload the asset list.  Returns the cached asset list (unchanged — the
reload is a separate backend fetch, recorded as the loadAssets call). -/
def deleteAssetSimple (cache : List AssetFile) (filePath fileName : String)
    (choice : ConfirmChoice) (res : ApiResult) : List AssetFile × List Eff :=
  match choice with
  | ConfirmChoice.confirmYes =>
      let call := Eff.apiCall "delete_asset" [filePath]
      match res with
      | .okStatus =>
          (cache, [call, Eff.alertMsg "File deleted successfully" "success",
                   Eff.apiCall "loadAssets" []])
      | .errorStatus msg =>
          (cache, [call, Eff.alertMsg msg "error"])
      | .exn msg =>
          (cache, [call, Eff.alertMsg ("Error deleting file: " ++ msg) "error"])
  | _ => (cache, [])

/-- Source `function deleteAsset(filePath, fileName)` in new_features.js
(lines 88-104): `if (!confirm(...)) return;` guards the backend call; on
success it toasts and refreshes the asset list. -/
def deleteAssetNF (cache : List AssetFile) (filePath fileName : String)
    (confirmed : Bool) (res : ApiResult) : List AssetFile × List Eff :=
  if ¬confirmed then (cache, [])
  else
    let call := Eff.apiCall "delete_asset" [filePath]
    match res with
    | .okStatus =>
        (cache, [call, Eff.toastMsg "File deleted" "success",
                 Eff.apiCall "refreshAssets" []])
    | .errorStatus msg => (cache, [call, Eff.toastMsg msg "error"])
    | .exn _ => (cache, [call, Eff.toastMsg "Error deleting file" "error"])

/-- Icon prefix chosen by `addOutput` for each message type (script.js
lines 423-427). -/
def iconFor (msgType : String) : String :=
  if msgType = "success" then "OK"
  else if msgType = "error" then "X"
  else if msgType = "warning" then "!"
  else "i"

/-- Text content of one output-console line:
`[timestamp] icon message` (script.js line 429). -/
def formatOutputLine (timestamp message msgType : String) : String :=
  "[" ++ timestamp ++ "] " ++ iconFor msgType ++ " " ++ message

/-- The trailing while loop of `addOutput` (script.js lines 434-436):
`while (output.children.length > 500) output.removeChild(output.firstChild)`. -/
def trimOutput : List String → List String
  | [] => []
  | a :: t => if (a :: t).length > 500 then trimOutput t else a :: t

/-- Source `function addOutput(message, type)` (script.js lines 417-437):
appends the formatted line to the output console, then trims from the
front down to 500 lines.  The timestamp is a runtime value, passed in. -/
def addOutput (output : List String) (timestamp message msgType : String) :
    List String :=
  trimOutput (output ++ [formatOutputLine timestamp message msgType])

/-! Concrete fixtures used by witnesses and counterexamples. -/

/-- App state with a job recorded as running and one-character code. -/
def jobRunningState : AppState :=
  { job := { running := true, type := none }, editor := some "x",
    isAppClosing := false, lastSavedCode := "", saveIndicator := "saved",
    hasUnsavedChanges := false }

/-- Idle app state with one-character code in the editor. -/
def idleState : AppState :=
  { job := initJob, editor := some "x", isAppClosing := false,
    lastSavedCode := "", saveIndicator := "saved", hasUnsavedChanges := false }

/-- Idle app state whose editor holds only whitespace. -/
def blankEditorState : AppState :=
  { job := initJob, editor := some "   ", isAppClosing := false,
    lastSavedCode := "q", saveIndicator := "saved", hasUnsavedChanges := false }

/-- DOM inputs: quality select 720p, fps select 30, no custom values. -/
def sett720 : RenderSettings :=
  { qualitySelect := "720p", customWidth := none, customHeight := none,
    fpsSelect := "30", customFps := none }

/-- One render start request with a success response. -/
def demoStartReq : StartReq :=
  { isPreview := false, sett := sett720, res := ApiResult.okStatus }

/-- A render start followed by a preview start. -/
def demoStartReqs : List StartReq :=
  [demoStartReq, { isPreview := true, sett := sett720, res := ApiResult.okStatus }]

/-! Theorems settling the claims. -/

/-- C1: for every sequence of startRender/startPreview requests at most one
job is recorded as running at any time, and a start request made while a
job is running is rejected immediately: the step returns the state
unchanged with exactly one warning toast, so no backend render/preview
call is issued and the Job record is untouched. -/
theorem claim_C1 (s : AppState) (r : StartReq) (rs : List StartReq)
    (h : s.job.running = true) :
    runningJobs (runStarts s rs).job ≤ 1 ∧
    startStep s r = (s, [Eff.toastMsg "Another job is running" "warning"]) ∧
    apiCallCount (startStep s r).2 = 0 ∧
    (startStep s r).1.job = s.job := by
  have hstep : startStep s r = (s, [Eff.toastMsg "Another job is running" "warning"]) := by
    unfold startStep quickPreview renderAnimation
    by_cases hp : r.isPreview <;> simp [hp, h]
  refine ⟨?_, hstep, ?_, ?_⟩
  · unfold runningJobs; split <;> simp
  · rw [hstep]; rfl
  · rw [hstep]

/-- Witness for C1 at the concrete running state and demo requests. -/
theorem claim_C1_witness :
    jobRunningState.job.running = true ∧
    (runningJobs (runStarts jobRunningState demoStartReqs).job ≤ 1 ∧
     startStep jobRunningState demoStartReq =
       (jobRunningState, [Eff.toastMsg "Another job is running" "warning"]) ∧
     apiCallCount (startStep jobRunningState demoStartReq).2 = 0 ∧
     (startStep jobRunningState demoStartReq).1.job = jobRunningState.job) :=
  ⟨rfl, claim_C1 jobRunningState demoStartReq demoStartReqs rfl⟩

/-- C2 counterexample: from the idle state with non-empty code and DOM
inputs quality=720p, fps=30, `renderAnimation` does invoke the backend
render entry point, but the resulting Job state still has
`running = false` — the UI layer never sets `running` to true, so the
claimed post-state { running: true, kind: render } is wrong. -/
theorem claim_C2_counterexample :
    (renderAnimation idleState sett720 ApiResult.okStatus).2 =
      [Eff.apiCall "render_animation" ["x", "720p", "30"]] ∧
    ¬ ((renderAnimation idleState sett720 ApiResult.okStatus).1.job.running = true) := by
  constructor
  · rfl
  · decide

/-- C2 amended: when startRender (respectively startPreview) is invoked
while no job is running and the editor code is non-empty, the backend
render (respectively preview) entry point is invoked with that code and
the resolved quality and fps; the Job state, however, is left unchanged by
this layer (its running flag stays false — it is only ever cleared, never
set, by the UI). -/
theorem claim_C2_amended (s : AppState) (sett : RenderSettings) (res : ApiResult)
    (h : s.job.running = false) (hc : jsTrim (getEditorValue s) ≠ "") :
    Eff.apiCall "render_animation"
        [getEditorValue s, resolveQuality sett, toString (resolveFps sett 30)]
      ∈ (renderAnimation s sett res).2 ∧
    (renderAnimation s sett res).1.job = s.job ∧
    Eff.apiCall "quick_preview"
        [getEditorValue s, resolveQuality sett, toString (resolveFps sett 15)]
      ∈ (quickPreview s sett res).2 ∧
    (quickPreview s sett res).1.job.running = false := by
  unfold renderAnimation quickPreview
  cases res <;> simp [h, hc]

/-- Witness for C2 amended at the idle state with code "x". -/
theorem claim_C2_amended_witness :
    idleState.job.running = false ∧ jsTrim (getEditorValue idleState) ≠ "" ∧
    (Eff.apiCall "render_animation"
        [getEditorValue idleState, resolveQuality sett720,
         toString (resolveFps sett720 30)]
      ∈ (renderAnimation idleState sett720 ApiResult.okStatus).2 ∧
     (renderAnimation idleState sett720 ApiResult.okStatus).1.job = idleState.job ∧
     Eff.apiCall "quick_preview"
        [getEditorValue idleState, resolveQuality sett720,
         toString (resolveFps sett720 15)]
      ∈ (quickPreview idleState sett720 ApiResult.okStatus).2 ∧
     (quickPreview idleState sett720 ApiResult.okStatus).1.job.running = false) :=
  ⟨rfl, by decide,
   claim_C2_amended idleState sett720 ApiResult.okStatus rfl (by decide)⟩

/-- C9: a render or preview request with empty (whitespace-only) editor
code is blocked locally: the state (and hence the Job) is unchanged, no
backend call appears among the effects, and a warning toast is shown. -/
theorem claim_C9 (s : AppState) (sett : RenderSettings) (res : ApiResult)
    (hc : jsTrim (getEditorValue s) = "") :
    (renderAnimation s sett res).1 = s ∧
    apiCallCount (renderAnimation s sett res).2 = 0 ∧
    (∃ m, Eff.toastMsg m "warning" ∈ (renderAnimation s sett res).2) ∧
    (quickPreview s sett res).1 = s ∧
    apiCallCount (quickPreview s sett res).2 = 0 ∧
    (∃ m, Eff.toastMsg m "warning" ∈ (quickPreview s sett res).2) := by
  unfold renderAnimation quickPreview
  by_cases h : s.job.running <;>
    simp [h, hc, apiCallCount, Eff.isApiCall]

/-- Witness for C9 at the whitespace-only editor state. -/
theorem claim_C9_witness :
    jsTrim (getEditorValue blankEditorState) = "" ∧
    ((renderAnimation blankEditorState sett720 ApiResult.okStatus).1 = blankEditorState ∧
     apiCallCount (renderAnimation blankEditorState sett720 ApiResult.okStatus).2 = 0 ∧
     (∃ m, Eff.toastMsg m "warning"
        ∈ (renderAnimation blankEditorState sett720 ApiResult.okStatus).2) ∧
     (quickPreview blankEditorState sett720 ApiResult.okStatus).1 = blankEditorState ∧
     apiCallCount (quickPreview blankEditorState sett720 ApiResult.okStatus).2 = 0 ∧
     (∃ m, Eff.toastMsg m "warning"
        ∈ (quickPreview blankEditorState sett720 ApiResult.okStatus).2)) :=
  ⟨by decide, claim_C9 blankEditorState sett720 ApiResult.okStatus (by decide)⟩

/-- App state whose editor content equals the last-saved snapshot. -/
def unchangedState : AppState :=
  { job := initJob, editor := some "x", isAppClosing := false,
    lastSavedCode := "x", saveIndicator := "saved", hasUnsavedChanges := false }

/-- C4: an autosave tick whose current editor content equals the
last-saved snapshot, or is empty (whitespace-only), performs no backend
call and leaves the whole state — in particular the save-status
indicator — unchanged. -/
theorem claim_C4 (s : AppState) (res : ApiResult)
    (h : getEditorValue s = s.lastSavedCode ∨ jsTrim (getEditorValue s) = "") :
    performAutosave s res = (s, []) := by
  unfold performAutosave
  by_cases he : s.editor = none ∨ s.isAppClosing
  · simp [he]
  · rcases h with h | h
    · simp [he, h]
    · by_cases h2 : getEditorValue s = s.lastSavedCode <;> simp [he, h, h2]

/-- Witness for C4 at a state whose content equals the snapshot. -/
theorem claim_C4_witness :
    (getEditorValue unchangedState = unchangedState.lastSavedCode ∨
      jsTrim (getEditorValue unchangedState) = "") ∧
    performAutosave unchangedState ApiResult.okStatus = (unchangedState, []) :=
  ⟨Or.inl (by decide),
   claim_C4 unchangedState ApiResult.okStatus (Or.inl (by decide))⟩

/-- C5: every completion or failure callback clears the Job running flag
(whatever the state, hence whichever job kind was active), and on
completion with a non-empty output path the output is loaded into the
preview surface. -/
theorem claim_C5 (s : AppState) (outputPath error suggestedName : String)
    (autoSave : Bool) :
    (renderCompleted s outputPath autoSave suggestedName).1.job.running = false ∧
    (renderFailed s error).1.job.running = false ∧
    (previewCompleted s outputPath).1.job.running = false ∧
    (previewFailed s error).1.job.running = false ∧
    (outputPath ≠ "" →
      Eff.showPreviewEff outputPath
        ∈ (renderCompleted s outputPath autoSave suggestedName).2 ∧
      Eff.showPreviewEff outputPath ∈ (previewCompleted s outputPath).2) := by
  unfold renderCompleted renderFailed previewCompleted previewFailed
  by_cases hp : outputPath = "" <;> by_cases ha : autoSave <;> simp [hp, ha]

/-- Witness for C5 at the running state with output path out.mp4. -/
theorem claim_C5_witness :
    ("out.mp4" : String) ≠ "" ∧
    ((renderCompleted jobRunningState "out.mp4" false "MyScene.mp4").1.job.running = false ∧
     Eff.showPreviewEff "out.mp4"
       ∈ (renderCompleted jobRunningState "out.mp4" false "MyScene.mp4").2 ∧
     Eff.showPreviewEff "out.mp4" ∈ (previewCompleted jobRunningState "out.mp4").2) :=
  ⟨by decide,
   (claim_C5 jobRunningState "out.mp4" "boom" "MyScene.mp4" false).1,
   (claim_C5 jobRunningState "out.mp4" "boom" "MyScene.mp4" false).2.2.2.2 (by decide)⟩

/-- Helper: delivering resize events only re-arms the debounce timer, so
the accumulated effect list of a burst stays whatever it started as. -/
theorem burstEffects_go (p : TermResizeState × List Eff) (evs : List ResizeSrc) :
    (evs.foldl
      (fun acc e => ((scheduleResize acc.1 e).1, acc.2 ++ (scheduleResize acc.1 e).2))
      p).2 = p.2 := by
  induction evs generalizing p with
  | nil => rfl
  | cons e t ih => simpa [scheduleResize] using ih ((scheduleResize p.1 e).1, p.2)

/-- Helper: a single debounce-timer fire emits at most one backend call. -/
theorem settleResize_apiCalls_le_one (s : TermResizeState) (cols rows : Nat) :
    apiCallCount (settleResize s cols rows).2 ≤ 1 := by
  obtain ⟨lc, lr, pend, closing⟩ := s
  cases pend with
  | none => simp [settleResize, apiCallCount]
  | some src =>
      cases src <;> unfold settleResize <;> split_ifs <;>
        simp [apiCallCount, Eff.isApiCall]

/-- Resize state with no pending timer and last reported size 80 x 24. -/
def demoResizeState : TermResizeState :=
  { lastCols := 80, lastRows := 24, pending := none, isAppClosing := false }

/-- Resize state whose window-path debounce timer is armed while the last
reported size is 80 x 24. -/
def staleWindowResize : TermResizeState :=
  { lastCols := 80, lastRows := 24, pending := some ResizeSrc.window,
    isAppClosing := false }

/-- Resize state whose observer-path debounce timer is armed while the
last reported size is 80 x 24. -/
def staleObserverResize : TermResizeState :=
  { lastCols := 80, lastRows := 24, pending := some ResizeSrc.observer,
    isAppClosing := false }

/-- C3 counterexample: with the window-resize debounce timer armed and a
last reported size of 80 x 24, a settle that recomputes the same 80 x 24
still sends the backend resize notification — the window-resize path does
not compare against the last reported size, so the notification is not
sent "only when the newly computed (cols, rows) differ". -/
theorem claim_C3_counterexample :
    staleWindowResize.lastCols = 80 ∧ staleWindowResize.lastRows = 24 ∧
    Eff.apiCall "resize_terminal" ["80", "24"]
      ∈ (settleResize staleWindowResize 80 24).2 := by
  refine ⟨rfl, rfl, ?_⟩
  decide

/-- C3 amended: during a resize burst no backend notification is sent (the
events only re-arm the shared debounce timer), a settled burst sends at
most one backend resize notification, and on the container ResizeObserver
path the notification is sent only when the newly computed (cols, rows)
differ from the last reported size; the window-resize path, however, sends
it after the debounce even when the size is unchanged. -/
theorem claim_C3_amended (s : TermResizeState) (evs : List ResizeSrc)
    (cols rows : Nat) :
    burstEffects s evs = [] ∧
    apiCallCount (settleResize (processBurst s evs) cols rows).2 ≤ 1 ∧
    (∀ s2 : TermResizeState, s2.pending = some ResizeSrc.observer →
      cols = s2.lastCols → rows = s2.lastRows →
      apiCallCount (settleResize s2 cols rows).2 = 0) := by
  refine ⟨burstEffects_go (s, []) evs, settleResize_apiCalls_le_one _ cols rows, ?_⟩
  intro s2 hpend hc hr
  obtain ⟨lc, lr, pend, closing⟩ := s2
  simp only at hpend hc hr
  subst hpend hc hr
  simp [settleResize, apiCallCount]

/-- Witness for C3 amended: a two-event observer burst from the 80 x 24
state, settling at 100 x 30; and an armed observer timer settling at the
unchanged 80 x 24 sends nothing. -/
theorem claim_C3_amended_witness :
    staleObserverResize.pending = some ResizeSrc.observer ∧
    (burstEffects demoResizeState [ResizeSrc.observer, ResizeSrc.observer] = [] ∧
     apiCallCount
       (settleResize (processBurst demoResizeState [ResizeSrc.observer, ResizeSrc.observer])
         100 30).2 ≤ 1 ∧
     apiCallCount (settleResize staleObserverResize 80 24).2 = 0) :=
  ⟨rfl,
   (claim_C3_amended demoResizeState [ResizeSrc.observer, ResizeSrc.observer] 100 30).1,
   (claim_C3_amended demoResizeState [ResizeSrc.observer, ResizeSrc.observer] 100 30).2.1,
   (claim_C3_amended demoResizeState [ResizeSrc.observer, ResizeSrc.observer] 80 24).2.2
     staleObserverResize rfl rfl rfl⟩

/-- C6 counterexample: the beforeunload handler sets the shutdown flag,
yet a terminal-polling tick occurring afterwards still calls the backend
`get_terminal_output` — the polling interval callback never consults
`isAppClosing`, so it is not the case that no further backend calls are
made during teardown. -/
theorem claim_C6_counterexample :
    (beforeunloadHandler idleState).isAppClosing = true ∧
    Eff.apiCall "get_terminal_output" []
      ∈ terminalPollTick (beforeunloadHandler idleState) true
          { okStatus := true, output := "" } := by
  exact ⟨rfl, by decide⟩

/-- C6 amended: once the shutdown flag is set, the guarded teardown paths
make no backend calls — a firing resize debounce timer sends no backend
resize notification, an autosave tick returns without any backend call,
and the resize error handler surfaces nothing — but the flag does not
suppress every backend call: the terminal output polling loop keeps
calling the backend. -/
theorem claim_C6_amended (s : TermResizeState) (a : AppState) (cols rows : Nat)
    (res : ApiResult) (err : String)
    (hs : s.isAppClosing = true) (ha : a.isAppClosing = true) :
    apiCallCount (settleResize s cols rows).2 = 0 ∧
    performAutosave a res = (a, []) ∧
    resizeErrorCatch true err = [] := by
  refine ⟨?_, ?_, rfl⟩
  · obtain ⟨lc, lr, pend, closing⟩ := s
    simp only at hs
    subst hs
    cases pend with
    | none => simp [settleResize, apiCallCount]
    | some src =>
        cases src <;> unfold settleResize <;> split_ifs <;>
          simp_all [apiCallCount, Eff.isApiCall]
  · unfold performAutosave
    simp [ha]

/-- Witness for C6 amended at concrete closing states. -/
theorem claim_C6_amended_witness :
    ({ staleWindowResize with isAppClosing := true } : TermResizeState).isAppClosing = true ∧
    (beforeunloadHandler idleState).isAppClosing = true ∧
    (apiCallCount
       (settleResize { staleWindowResize with isAppClosing := true } 100 30).2 = 0 ∧
     performAutosave (beforeunloadHandler idleState) ApiResult.okStatus =
       (beforeunloadHandler idleState, []) ∧
     resizeErrorCatch true "gone" = []) :=
  ⟨rfl, rfl,
   claim_C6_amended { staleWindowResize with isAppClosing := true }
     (beforeunloadHandler idleState) 100 30 ApiResult.okStatus "gone" rfl rfl⟩

/-- C7: applying the asset filter with an empty search query and category
"all" displays exactly the full cached list, unchanged and in order. -/
theorem claim_C7 (files : List AssetFile) :
    displayAssets files "" "all" = files := by
  cases files <;> simp [displayAssets, filterAssets]

/-- C8: a backend delete-asset call is issued only on the confirmed
choice; any declined or dismissed confirmation (for either deleteAsset
implementation) leaves the cached asset list unchanged and performs no
effect at all, and conversely a delete call among the effects implies the
deletion was confirmed. -/
theorem claim_C8 (cache : List AssetFile) (filePath fileName : String)
    (choice : ConfirmChoice) (confirmed : Bool) (res : ApiResult)
    (hd : choice ≠ ConfirmChoice.confirmYes) (hnf : confirmed = false) :
    deleteAssetSimple cache filePath fileName choice res = (cache, []) ∧
    deleteAssetNF cache filePath fileName confirmed res = (cache, []) ∧
    (∀ (c2 : ConfirmChoice) (r2 : ApiResult),
      Eff.apiCall "delete_asset" [filePath]
        ∈ (deleteAssetSimple cache filePath fileName c2 r2).2 →
      c2 = ConfirmChoice.confirmYes) ∧
    (∀ (b2 : Bool) (r2 : ApiResult),
      Eff.apiCall "delete_asset" [filePath]
        ∈ (deleteAssetNF cache filePath fileName b2 r2).2 →
      b2 = true) := by
  subst hnf
  refine ⟨?_, rfl, ?_, ?_⟩
  · cases choice <;> first | rfl | exact absurd rfl hd
  · intro c2 r2 hmem
    cases c2 <;> cases r2 <;> simp_all [deleteAssetSimple]
  · intro b2 r2 hmem
    cases b2 <;> cases r2 <;> simp_all [deleteAssetNF]

/-- Witness for C8 with a dismissed confirmation on a one-element cache. -/
theorem claim_C8_witness :
    ConfirmChoice.cancelBtn ≠ ConfirmChoice.confirmYes ∧ (false = false) ∧
    (deleteAssetSimple [{ name := "a.mp4", path := "p/a.mp4" }] "p/a.mp4" "a.mp4"
        ConfirmChoice.cancelBtn ApiResult.okStatus =
      ([{ name := "a.mp4", path := "p/a.mp4" }], []) ∧
     deleteAssetNF [{ name := "a.mp4", path := "p/a.mp4" }] "p/a.mp4" "a.mp4"
        false ApiResult.okStatus =
      ([{ name := "a.mp4", path := "p/a.mp4" }], [])) :=
  ⟨by decide, rfl,
   (claim_C8 [{ name := "a.mp4", path := "p/a.mp4" }] "p/a.mp4" "a.mp4"
      ConfirmChoice.cancelBtn false ApiResult.okStatus (by decide) rfl).1,
   (claim_C8 [{ name := "a.mp4", path := "p/a.mp4" }] "p/a.mp4" "a.mp4"
      ConfirmChoice.cancelBtn false ApiResult.okStatus (by decide) rfl).2.1⟩

/-- Helper: the trailing while loop of addOutput drops exactly the excess
over 500 from the front. -/
theorem trimOutput_eq_drop (l : List String) :
    trimOutput l = l.drop (l.length - 500) := by
  induction l with
  | nil => rfl
  | cons a t ih =>
      unfold trimOutput
      by_cases h : (a :: t).length > 500
      · rw [if_pos h, ih]
        have hlen : t.length ≥ 500 := by
          simp only [List.length_cons] at h
          omega
        have h2 : (a :: t).length - 500 = (t.length - 500) + 1 := by
          simp only [List.length_cons]
          omega
        rw [h2, List.drop_succ_cons]
      · rw [if_neg h]
        have h0 : (a :: t).length - 500 = 0 := by
          simp only [List.length_cons] at h ⊢
          omega
        rw [h0, List.drop_zero]

/-- C10: after every addOutput call the output console holds at most 500
lines; its content is exactly the most recent min(n+1, 500) lines, i.e. a
suffix of the previous content with the new line appended, with the
oldest lines removed first. -/
theorem claim_C10 (output : List String) (timestamp message msgType : String) :
    (addOutput output timestamp message msgType).length ≤ 500 ∧
    (addOutput output timestamp message msgType).length =
      min (output.length + 1) 500 ∧
    List.IsSuffix (addOutput output timestamp message msgType)
      (output ++ [formatOutputLine timestamp message msgType]) := by
  unfold addOutput
  rw [trimOutput_eq_drop]
  refine ⟨?_, ?_, ?_⟩
  · rw [List.length_drop]
    simp only [List.length_append, List.length_cons, List.length_nil]
    omega
  · rw [List.length_drop]
    simp only [List.length_append, List.length_cons, List.length_nil]
    omega
  · exact ⟨_, List.take_append_drop _ _⟩

end ManimStudio
